import Mathlib

/-!
Verification of the rich-content editing core of the ZingZui note-taking app.

The live contentEditable surface (src/components/RichTextEditor.tsx) is
modelled as a flat list of atoms: a character of a text node, an inline
image node (with its `src` and whether it carries the `selected` class),
or a `<br>` line-break element.  A DOM selection/range is a pair of
offsets into that flat atom sequence; DOM `Range.insertNode`,
`deleteContents`, `setStartAfter` and `collapse` become list surgery at
those offsets.  `innerHTML` is the concatenated serialization of the
atoms (styling attributes set by the source are not observable by any
claim and are omitted from the serialization).

The dictation subsystem (src/components/VoiceInputButton.tsx, the
current revision of the file) is modelled as explicit state passing: the
React refs/state (`isRecording`, `isSupported`, `error`,
`shouldContinueRef`, `resultIndexRef`, plus whether the underlying
recognizer is active and whether the restart `setTimeout` is pending)
form a `Session` record, and the event handlers become functions
`Session → Session`.
-/

namespace ZingZui

/-- One atom of the editable surface: a character of a text node, an
inline `<img>` node (src, selected-class flag), or a `<br>` element. -/
inductive Atom
  | ch (c : Char)
  | img (src : String) (selected : Bool)
  | br
  deriving DecidableEq

/-- The editable surface content, flattened. -/
abbrev Doc := List Atom

/-- The atoms of a text node holding string `t`. -/
def textAtoms (t : String) : Doc := t.toList.map Atom.ch

/-- Serialization of one atom, as `innerHTML` would render it
(presentation attributes the source sets on images are omitted). -/
def serializeAtom : Atom → String
  | .ch c => String.singleton c
  | .img src true => "<img class=\"selected\" src=\"" ++ src ++ "\">"
  | .img src false => "<img src=\"" ++ src ++ "\">"
  | .br => "<br>"

/-- The `innerHTML` of the surface: concatenated atom serializations. -/
def serialize (d : Doc) : String := String.join (d.map serializeAtom)

/-- A DOM range, as a pair of boundary offsets into the flat atom
sequence (`start ≤ stop` for a well-formed range; a collapsed caret has
`start = stop`). -/
structure DocRange where
  start : Nat
  stop : Nat
  deriving DecidableEq

/-- The state the RichTextEditor handlers act on: the surface content
and the window selection (none when `rangeCount = 0`). -/
structure EditorState where
  doc : Doc
  selection : Option DocRange
  deriving DecidableEq

/-- Result of running one editor handler: the new editor state, the
value passed to the caller's `onChange` callback (none if `onChange` was
not invoked), and the argument of `alert` if one was shown. -/
structure EmitResult where
  state : EditorState
  emitted : Option String
  alert : Option String
  deriving DecidableEq

/-- Model of `insertTextAtCursor` (src/components/RichTextEditor.tsx:27-47):
if a selection range exists, `range.insertNode(textNode)` inserts the
text at the range start, `setStartAfter` + `collapse(true)` collapse the
caret right after it; otherwise the text node is appended at the end of
the editor.  In both branches `onChange(editor.innerHTML)` fires. -/
def insertTextAtCursor (s : EditorState) (t : String) : EmitResult :=
  match s.selection with
  | some r =>
      let doc1 := s.doc.take r.start ++ textAtoms t ++ s.doc.drop r.start
      let cur := r.start + t.length
      { state := { doc := doc1, selection := some ⟨cur, cur⟩ },
        emitted := some (serialize doc1), alert := none }
  | none =>
      let doc1 := s.doc ++ textAtoms t
      { state := { doc := doc1, selection := none },
        emitted := some (serialize doc1), alert := none }

/-- State of the value-sync effect (src/components/RichTextEditor.tsx:50-72):
the surface is observed through its `innerHTML` string and the selection
through its flat offsets; the old start container's identity is
abstracted to the clamp of the captured offset against the old content
length (the code clamps against `startContainer.textContent.length`). -/
structure RenderState where
  content : String
  selection : Option DocRange
  deriving DecidableEq

/-- The `useEffect [value]` body (src/components/RichTextEditor.tsx:50-72):
if `editorRef.current.innerHTML !== value`, capture the selection start,
rewrite `innerHTML`, and re-establish a collapsed selection at the
captured offset clamped to the container length; otherwise do nothing. -/
def render (s : RenderState) (v : String) : RenderState :=
  if s.content = v then s
  else
    { content := v,
      selection := s.selection.map fun r =>
        let o := min r.start s.content.length
        ⟨o, o⟩ }

/-- Result of the external `uploadImage(blob, userId)` call
(src/unnamed lib/storage `uploadImage`): a public URL, a storage path,
and an optional error message; the function catches all exceptions, so
it always resolves to such a record. -/
structure UploadResult where
  url : String
  path : String
  error : Option String
  deriving DecidableEq

/-- The `reader.onload` continuation of `handlePaste`
(src/components/RichTextEditor.tsx:93-132), run when the upload of a
pasted image resolves.  On `result.error`: `alert(...)` and return —
no DOM mutation, no `onChange`.  On success: if a selection range
exists, `deleteContents`, `insertNode(img)`, `collapse(false)`,
`insertNode(br)`, `setStartAfter(br)`, `collapse(true)` — i.e. the
range's content is replaced by `img` then `br` with the caret after the
`br`; otherwise `img` and `br` are appended at the end.  Then
`onChange(editor.innerHTML)`. -/
def handlePasteUploadResolved (s : EditorState) (res : UploadResult) : EmitResult :=
  match res.error with
  | some e =>
      { state := s, emitted := none,
        alert := some ("Failed to upload image: " ++ e) }
  | none =>
      match s.selection with
      | some r =>
          let doc1 := s.doc.take r.start ++ s.doc.drop r.stop
          let doc2 := doc1.take r.start ++ [Atom.img res.url false] ++ doc1.drop r.start
          let doc3 := doc2.take (r.start + 1) ++ [Atom.br] ++ doc2.drop (r.start + 1)
          let cur := r.start + 2
          { state := { doc := doc3, selection := some ⟨cur, cur⟩ },
            emitted := some (serialize doc3), alert := none }
      | none =>
          let doc1 := s.doc ++ [Atom.img res.url false, Atom.br]
          { state := { doc := doc1, selection := s.selection },
            emitted := some (serialize doc1), alert := none }

/-- Number of `<img>` atoms in `d` whose `src` equals `u`. -/
def countImgSrc (u : String) (d : Doc) : Nat :=
  d.countP fun a =>
    match a with
    | .img src _ => decide (src = u)
    | _ => false

/-- A `DataTransferItem` of the clipboard: its MIME `type` and the
result of `getAsFile()` (none when the item is not a file). -/
structure ClipItem where
  mime : String
  file : Option String
  deriving DecidableEq

/-- Model of `items[i].type.indexOf('image') !== -1`: substring containment. -/
def strContains (s pat : String) : Bool := decide (pat.toList <:+: s.toList)

/-- The item scan of `handlePaste` (src/components/RichTextEditor.tsx:86-137):
walk the clipboard items in order; at an item whose type contains
"image", call `getAsFile()` — if it returns no file, `continue` to the
next item, otherwise read it, start the upload, and `break`.  Returns
the file handed to the upload pipeline, if any. -/
def firstImageFile : List ClipItem → Option String
  | [] => none
  | it :: rest =>
      if strContains it.mime "image" then
        match it.file with
        | some f => some f
        | none => firstImageFile rest
      else firstImageFile rest

/-- How `getPublicUrl`-style paths are recovered from an image URL:
`imgSrc.match` with regex `note-images\/(.+)$` — everything after the first
occurrence of "note-images/", provided it is non-empty.  Implemented on
character lists: find the first occurrence of the pattern and return the
remainder. -/
def splitAfterFirst (pat : List Char) : List Char → Option (List Char)
  | [] => none
  | c :: rest =>
      if pat.isPrefixOf (c :: rest) then some ((c :: rest).drop pat.length)
      else splitAfterFirst pat rest

/-- The object-store path derived from an attachment URL by
`handleKeyDown` (src/components/RichTextEditor.tsx:172-175): the capture
of the first regex match of `note-images/(.+)$`, or none if the pattern
does not occur (the `(.+)` capture needs at least one character). -/
def derivePath (src : String) : Option String :=
  match splitAfterFirst "note-images/".toList src.toList with
  | some cs => if cs.isEmpty then none else some (String.mk cs)
  | none => none

/-- Outcome of the underlying `supabase.storage.remove` call inside
`deleteImage`: success, a storage error object, or a thrown exception. -/
inductive StoreOutcome
  | ok
  | storeError (msg : String)
  | exn (msg : String)
  deriving DecidableEq

/-- Model of `deleteImage(path)` (src/unnamed lib/storage): returns `{}` on
success and `{error: msg}` on a storage error or a caught exception —
it never rejects, whatever the store does. -/
def deleteImage : StoreOutcome → Option String
  | .ok => none
  | .storeError m => some m
  | .exn m => some m

/-- Model of `document.querySelector('img.selected')`: the first image atom in
document order carrying the `selected` class; yields its `src`. -/
def findSelectedImg (d : Doc) : Option String :=
  d.findSome? fun a =>
    match a with
    | .img src true => some src
    | _ => none

/-- Model of `selectedImg.remove()`: drop the first selected image atom. -/
def removeFirstSelectedImg : Doc → Doc
  | [] => []
  | .img _ true :: rest => rest
  | a :: rest => a :: removeFirstSelectedImg rest

/-- Outcome of one `handleKeyDown` run: the new document, the path
passed to `deleteImage` (none if no delete was issued), the response the
awaited `deleteImage` resolved to (none if no delete was issued), the
`onChange` emission, and whether `preventDefault` was called. -/
structure KeyOutcome where
  doc : Doc
  deletedPath : Option String
  deleteResponse : Option (Option String)
  emitted : Option String
  prevented : Bool
  deriving DecidableEq

/-- Model of `handleKeyDown` (src/components/RichTextEditor.tsx:165-182): if an
image is selected and the key is Delete or Backspace, prevent the
default, derive the storage path from the image `src` and — when the
pattern matches — `await deleteImage(path)`; then, regardless of what
the delete resolved to, `selectedImg.remove()` and
`onChange(editor.innerHTML)`.  `store` is the remote store's behaviour
for the issued delete. -/
def handleKeyDown (d : Doc) (key : String) (store : StoreOutcome) : KeyOutcome :=
  match findSelectedImg d with
  | some src =>
      if key = "Delete" ∨ key = "Backspace" then
        let issued := derivePath src
        let resp := issued.map fun _ => deleteImage store
        let d1 := removeFirstSelectedImg d
        { doc := d1, deletedPath := issued, deleteResponse := resp,
          emitted := some (serialize d1), prevented := true }
      else
        { doc := d, deletedPath := none, deleteResponse := none,
          emitted := none, prevented := false }
  | none =>
      { doc := d, deletedPath := none, deleteResponse := none,
        emitted := none, prevented := false }

/-- One entry of the recognizer's cumulative `event.results` list: its
`isFinal` flag and the best alternative's transcript. -/
structure RecResult where
  isFinal : Bool
  transcript : String
  deriving DecidableEq

/-- JS truthiness of `transcript.trim()`: non-empty after trimming,
i.e. the string contains at least one non-whitespace character. -/
def trimNonempty (s : String) : Bool := s.toList.any fun c => !c.isWhitespace

/-- A finalized result with a non-whitespace transcript — exactly the
condition under which `recognition.onresult` emits it. -/
def finalNonblank (r : RecResult) : Bool :=
  r.isFinal && trimNonempty r.transcript

/-- The text passed to the output sink for an emitted result: the
transcript followed by the trailing space delimiter. -/
def emitOf (r : RecResult) : String := r.transcript ++ " "

/-- The loop body of `recognition.onresult`
(src/components/VoiceInputButton.tsx:214-223), processing the results
whose index starts at `i` with the current cursor `c`: a final result
is emitted when `transcript.trim()` is truthy and always sets the
cursor to its index + 1; a non-final result leaves the cursor alone.
Returns the emissions in order and the final cursor. -/
def onResultAux : List RecResult → Nat → Nat → List String × Nat
  | [], _, c => ([], c)
  | r :: rest, i, c =>
      if r.isFinal then
        let pr := onResultAux rest (i + 1) (i + 1)
        ((if trimNonempty r.transcript then [emitOf r] else []) ++ pr.1, pr.2)
      else onResultAux rest (i + 1) c

/-- Model of `recognition.onresult` (src/components/VoiceInputButton.tsx:213-224):
iterate from `resultIndexRef.current` through `event.results.length`;
returns the list of `onTranscript` calls in order and the new value of
`resultIndexRef.current`. -/
def onResult (results : List RecResult) (cursor : Nat) : List String × Nat :=
  onResultAux (results.drop cursor) cursor cursor

/-- The dictation session state: the component's React state and refs
(src/components/VoiceInputButton.tsx:181-187) plus two facts about the
environment — whether the underlying recognizer is actively streaming
(`recognizerOn`, between a `start()` and the matching end) and whether
the restart `setTimeout` scheduled by `onend` is pending
(`timerPending`).  `startCount` counts every invocation of
`recognition.start()`, to state "no further restarts". -/
structure Session where
  isRecording : Bool
  isSupported : Bool
  errorMsg : Option String
  shouldContinue : Bool
  resultIndex : Nat
  recognizerOn : Bool
  timerPending : Bool
  startCount : Nat
  deriving DecidableEq

/-- Events driving the session: a press of the toggle control, a
recognizer error of the given kind, the recognizer's end event, and the
firing of the pending restart timer. -/
inductive SessionEvent
  | toggle
  | errorEvt (kind : String)
  | ended
  | timerFire
  deriving DecidableEq

/-- Model of `toggleRecording` (src/components/VoiceInputButton.tsx:282-302),
guarded by the component rendering `null` when unsupported
(src/components/VoiceInputButton.tsx:304-306) — an unsupported session
has no control to press, so the press is a no-op.  Otherwise:
`setError(null)`; if recording, clear `shouldContinueRef` and stop the
recognizer; if not, reset `resultIndexRef`, set `shouldContinueRef`,
and `start()` (successful-start case). -/
def toggleRecording (s : Session) : Session :=
  if !s.isSupported then s
  else
    let s1 := { s with errorMsg := none }
    if s1.isRecording then
      { s1 with shouldContinue := false, recognizerOn := false,
                isRecording := false }
    else
      { s1 with resultIndex := 0, shouldContinue := true,
                recognizerOn := true, isRecording := true,
                startCount := s1.startCount + 1 }

/-- Model of `recognition.onerror` (src/components/VoiceInputButton.tsx:226-245):
`no-speech`, `aborted` and unknown kinds are logged only; `not-allowed`
sets the error message, marks the platform unsupported, clears
`shouldContinueRef` and `isRecording`; `network` sets the error message
and clears `shouldContinueRef` and `isRecording`. -/
def onError (s : Session) (kind : String) : Session :=
  if kind = "no-speech" then s
  else if kind = "not-allowed" then
    { s with errorMsg := some "Microphone access denied.",
             isSupported := false, shouldContinue := false,
             isRecording := false }
  else if kind = "aborted" then s
  else if kind = "network" then
    { s with errorMsg := some "Network error. Please check your connection.",
             shouldContinue := false, isRecording := false }
  else s

/-- Model of `recognition.onend` (src/components/VoiceInputButton.tsx:247-266):
the recognizer has stopped streaming; if `shouldContinueRef` is set, a
100 ms restart timer is scheduled, otherwise `isRecording` is cleared. -/
def onEnd (s : Session) : Session :=
  if s.shouldContinue then
    { s with timerPending := true, recognizerOn := false }
  else
    { s with isRecording := false, recognizerOn := false }

/-- The body of the `setTimeout` scheduled by `onend`
(src/components/VoiceInputButton.tsx:250-262): re-check
`shouldContinueRef`; if still set, reset `resultIndexRef` to 0 and
re-invoke `start()` on the same recognizer (successful-restart case);
if not, do nothing further. -/
def onTimer (s : Session) : Session :=
  if s.timerPending then
    if s.shouldContinue then
      { s with timerPending := false, resultIndex := 0,
               recognizerOn := true, startCount := s.startCount + 1 }
    else { s with timerPending := false }
  else s

/-- One step of the session under an event. -/
def step (s : Session) : SessionEvent → Session
  | .toggle => toggleRecording s
  | .errorEvt k => onError s k
  | .ended => onEnd s
  | .timerFire => onTimer s

/-- Model of the component's render gate
(src/components/VoiceInputButton.tsx:304-336): when `isSupported` is
false the component returns `null`, so neither the toggle `Pressable`
nor the error `Text` exists in the tree; otherwise the error `Text` is
rendered exactly when the error state is set.  This is the error
message the user can actually see. -/
def visibleError (s : Session) : Option String :=
  if s.isSupported then s.errorMsg else none

/-- Whether the toggle control exists in the rendered tree
(src/components/VoiceInputButton.tsx:304-306): the component renders
`null` when unsupported. -/
def controlRendered (s : Session) : Bool := s.isSupported

/-- Run the session through a list of events. -/
def run (s : Session) (evs : List SessionEvent) : Session :=
  evs.foldl step s

/-- The dictation target field (NoteEditorModal's `activeField`). -/
inductive ActiveField
  | title
  | body
  deriving DecidableEq

/-- The router state of NoteEditorModal: the active field and the
one-shot `isVoiceButtonPressed` suppression ref. -/
structure RouterState where
  activeField : ActiveField
  voicePressed : Bool
  deriving DecidableEq

/-- Model of `handleTitleBlur` (NoteEditorModal, src/components/ThemedButton.tsx):
unless the suppression flag is set, reset the active field to `body`;
in either case clear the flag. -/
def handleTitleBlur (s : RouterState) : RouterState :=
  { activeField := if !s.voicePressed then ActiveField.body else s.activeField,
    voicePressed := false }

/-- Model of `handleBodyBlur` (NoteEditorModal, src/components/ThemedButton.tsx):
identical to the title-blur handler. -/
def handleBodyBlur (s : RouterState) : RouterState :=
  { activeField := if !s.voicePressed then ActiveField.body else s.activeField,
    voicePressed := false }

/-- Model of `handleVoiceButtonPress` (NoteEditorModal,
src/components/ThemedButton.tsx): set the one-shot suppression flag at
press-start of the dictation toggle. -/
def handleVoiceButtonPress (s : RouterState) : RouterState :=
  { s with voicePressed := true }

lemma textAtoms_length (t : String) : (textAtoms t).length = t.length := by
  simp [textAtoms]

/-- C1: for every document and cursor offset `k` inside it,
`insertTextAtCursor t` with an active selection range inserts a text
node at that point — `t` occupies offsets `k..k+|t|`, the content before
`k` is untouched — and collapses the cursor at `k + length t`; with no
selection, `t` is appended at the document's end; in both cases the full
serialized surface content is emitted to the change callback. -/
theorem insertTextAtCursor_spec (s : EditorState) (t : String) :
    (∀ r : DocRange, s.selection = some r → r.start ≤ s.doc.length →
      (insertTextAtCursor s t).state.doc
          = s.doc.take r.start ++ textAtoms t ++ s.doc.drop r.start
        ∧ (insertTextAtCursor s t).state.doc.take r.start = s.doc.take r.start
        ∧ ((insertTextAtCursor s t).state.doc.drop r.start).take t.length = textAtoms t
        ∧ (insertTextAtCursor s t).state.selection
            = some ⟨r.start + t.length, r.start + t.length⟩
        ∧ (insertTextAtCursor s t).emitted
            = some (serialize (insertTextAtCursor s t).state.doc))
    ∧ (s.selection = none →
        (insertTextAtCursor s t).state.doc = s.doc ++ textAtoms t
        ∧ (insertTextAtCursor s t).emitted
            = some (serialize (insertTextAtCursor s t).state.doc)) := by
  constructor
  · intro r hr hk
    have hlen : (s.doc.take r.start).length = r.start := by
      simp [List.length_take, Nat.min_eq_left hk]
    refine ⟨?_, ?_, ?_, ?_, ?_⟩
    · simp [insertTextAtCursor, hr]
    · simp only [insertTextAtCursor, hr]
      rw [List.append_assoc]
      exact List.take_left' hlen
    · simp only [insertTextAtCursor, hr]
      rw [List.append_assoc, List.drop_left' hlen]
      exact List.take_left' (textAtoms_length t)
    · simp [insertTextAtCursor, hr]
    · simp [insertTextAtCursor, hr]
  · intro hr
    constructor
    · simp [insertTextAtCursor, hr]
    · simp [insertTextAtCursor, hr]

/-- Witness for C1 at a concrete document and cursor. -/
theorem insertTextAtCursor_spec_witness :
    (insertTextAtCursor ⟨textAtoms "abcd", some ⟨2, 2⟩⟩ "XY").state.selection
        = some ⟨4, 4⟩
    ∧ ((insertTextAtCursor ⟨textAtoms "abcd", some ⟨2, 2⟩⟩ "XY").state.doc.drop 2).take 2
        = textAtoms "XY" := by
  have h := (insertTextAtCursor_spec ⟨textAtoms "abcd", some ⟨2, 2⟩⟩ "XY").1
    ⟨2, 2⟩ rfl (by decide)
  exact ⟨h.2.2.2.1, h.2.2.1⟩

/-- C5: `render` is idempotent — after `render v`, a second `render v`
leaves the surface content and the live selection unchanged (the write
is guarded by comparing against the surface's current content). -/
theorem render_idempotent (s : RenderState) (v : String) :
    render (render s v) v = render s v := by
  unfold render
  by_cases h : s.content = v
  · simp [h]
  · simp [h]

/-- C7: on upload failure for a pasted image, a user-visible alert is
surfaced and the handler returns before touching the DOM: the editor
state is exactly as before the paste and no change callback fires. -/
theorem handlePasteUploadResolved_failure_spec (s : EditorState)
    (res : UploadResult) (e : String) (herr : res.error = some e) :
    (handlePasteUploadResolved s res).state = s
    ∧ (handlePasteUploadResolved s res).emitted = none
    ∧ (handlePasteUploadResolved s res).alert
        = some ("Failed to upload image: " ++ e) := by
  refine ⟨?_, ?_, ?_⟩ <;> simp [handlePasteUploadResolved, herr]

/-- Witness for C7 at a concrete editor state and failed upload. -/
theorem handlePasteUploadResolved_failure_spec_witness :
    (handlePasteUploadResolved ⟨textAtoms "ab", some ⟨1, 1⟩⟩ ⟨"", "", some "boom"⟩).state
        = ⟨textAtoms "ab", some ⟨1, 1⟩⟩
    ∧ (handlePasteUploadResolved ⟨textAtoms "ab", some ⟨1, 1⟩⟩ ⟨"", "", some "boom"⟩).emitted
        = none :=
  have h := handlePasteUploadResolved_failure_spec
    ⟨textAtoms "ab", some ⟨1, 1⟩⟩ ⟨"", "", some "boom"⟩ "boom" rfl
  ⟨h.1, h.2.1⟩

/-- C9: a blur of either the title field or the body resets the active
field to `body` when the one-shot suppression flag is unset, leaves it
unchanged when the flag is set, and in either case the very next blur
handler clears the flag; the flag is set by the dictation toggle's
press-start handler. -/
theorem blur_suppression_spec (s : RouterState) :
    (s.voicePressed = false →
      (handleTitleBlur s).activeField = ActiveField.body
      ∧ (handleBodyBlur s).activeField = ActiveField.body)
    ∧ (s.voicePressed = true →
      (handleTitleBlur s).activeField = s.activeField
      ∧ (handleBodyBlur s).activeField = s.activeField)
    ∧ (handleTitleBlur s).voicePressed = false
    ∧ (handleBodyBlur s).voicePressed = false
    ∧ (handleVoiceButtonPress s).voicePressed = true := by
  refine ⟨fun h => ?_, fun h => ?_, ?_, ?_, ?_⟩ <;>
    simp [handleTitleBlur, handleBodyBlur, handleVoiceButtonPress, *]

/-- Witness for C9 at concrete router states. -/
theorem blur_suppression_spec_witness :
    (handleTitleBlur ⟨ActiveField.title, false⟩).activeField = ActiveField.body
    ∧ (handleBodyBlur ⟨ActiveField.title, true⟩).activeField = ActiveField.title
    ∧ (handleBodyBlur ⟨ActiveField.title, true⟩).voicePressed = false :=
  ⟨((blur_suppression_spec ⟨ActiveField.title, false⟩).1 rfl).1,
   ((blur_suppression_spec ⟨ActiveField.title, true⟩).2.1 rfl).2,
   (blur_suppression_spec ⟨ActiveField.title, true⟩).2.2.2.1⟩

/-- Counting attachment atoms distributes over append. -/
lemma countImgSrc_append (u : String) (d1 d2 : Doc) :
    countImgSrc u (d1 ++ d2) = countImgSrc u d1 + countImgSrc u d2 := by
  simp [countImgSrc, List.countP_append]

lemma countImgSrc_le_of_sublist (u : String) {d1 d2 : Doc}
    (h : d1.Sublist d2) : countImgSrc u d1 ≤ countImgSrc u d2 :=
  List.Sublist.countP_le _ h

/-- C6: on upload success for a pasted image with a live selection
range, the range's content is deleted, an attachment node with the
returned URL is inserted there, immediately followed by a line-break
node, the cursor lands just after the line break, the document then
holds exactly one attachment with that URL (when it held none before),
and the new serialized content is emitted. -/
theorem handlePasteUploadResolved_success_spec (s : EditorState)
    (res : UploadResult) (r : DocRange)
    (hsel : s.selection = some r) (herr : res.error = none)
    (h1 : r.start ≤ r.stop) (h2 : r.stop ≤ s.doc.length)
    (hnone : countImgSrc res.url s.doc = 0) :
    (handlePasteUploadResolved s res).state.doc
        = s.doc.take r.start ++ [Atom.img res.url false, Atom.br] ++ s.doc.drop r.stop
    ∧ countImgSrc res.url (handlePasteUploadResolved s res).state.doc = 1
    ∧ (handlePasteUploadResolved s res).state.selection
        = some ⟨r.start + 2, r.start + 2⟩
    ∧ (handlePasteUploadResolved s res).emitted
        = some (serialize (handlePasteUploadResolved s res).state.doc)
    ∧ (handlePasteUploadResolved s res).alert = none := by
  have hk : r.start ≤ s.doc.length := le_trans h1 h2
  have hlenA : (s.doc.take r.start).length = r.start := by
    simp [List.length_take, Nat.min_eq_left hk]
  have hdoc2 :
      (s.doc.take r.start ++ s.doc.drop r.stop).take r.start
          ++ [Atom.img res.url false]
          ++ (s.doc.take r.start ++ s.doc.drop r.stop).drop r.start
        = (s.doc.take r.start ++ [Atom.img res.url false]) ++ s.doc.drop r.stop := by
    rw [List.take_left' hlenA, List.drop_left' hlenA, List.append_assoc]
  have hlenA1 : (s.doc.take r.start ++ [Atom.img res.url false]).length
      = r.start + 1 := by
    simp [hlenA]
  have hdoc3 :
      (handlePasteUploadResolved s res).state.doc
        = s.doc.take r.start ++ [Atom.img res.url false, Atom.br] ++ s.doc.drop r.stop := by
    simp only [handlePasteUploadResolved, herr, hsel]
    rw [hdoc2, List.take_left' hlenA1, List.drop_left' hlenA1]
    simp
  refine ⟨hdoc3, ?_, ?_, ?_, ?_⟩
  · rw [hdoc3]
    have hA : countImgSrc res.url (s.doc.take r.start) = 0 :=
      Nat.le_zero.mp (hnone ▸ countImgSrc_le_of_sublist res.url
        (List.take_sublist r.start s.doc))
    have hB : countImgSrc res.url (s.doc.drop r.stop) = 0 :=
      Nat.le_zero.mp (hnone ▸ countImgSrc_le_of_sublist res.url
        (List.drop_sublist r.stop s.doc))
    rw [countImgSrc_append, countImgSrc_append, hA, hB]
    simp [countImgSrc]
  · simp [handlePasteUploadResolved, herr, hsel]
  · simp [handlePasteUploadResolved, herr, hsel]
  · simp [handlePasteUploadResolved, herr, hsel]

/-- Witness for C6 at a concrete paste over the selected range 1..3 of
the four-character document "abcd". -/
theorem handlePasteUploadResolved_success_spec_witness :
    (handlePasteUploadResolved ⟨textAtoms "abcd", some ⟨1, 3⟩⟩
        ⟨"https://store/note-images/u1/abc.png", "u1/abc.png", none⟩).state.doc
      = [Atom.ch 'a', Atom.img "https://store/note-images/u1/abc.png" false,
         Atom.br, Atom.ch 'd']
    ∧ countImgSrc "https://store/note-images/u1/abc.png"
        (handlePasteUploadResolved ⟨textAtoms "abcd", some ⟨1, 3⟩⟩
          ⟨"https://store/note-images/u1/abc.png", "u1/abc.png", none⟩).state.doc = 1
    ∧ (handlePasteUploadResolved ⟨textAtoms "abcd", some ⟨1, 3⟩⟩
        ⟨"https://store/note-images/u1/abc.png", "u1/abc.png", none⟩).state.selection
      = some ⟨3, 3⟩ := by
  have h := handlePasteUploadResolved_success_spec ⟨textAtoms "abcd", some ⟨1, 3⟩⟩
    ⟨"https://store/note-images/u1/abc.png", "u1/abc.png", none⟩ ⟨1, 3⟩
    rfl rfl (by decide) (by decide) (by decide)
  refine ⟨?_, h.2.1, h.2.2.1⟩
  rw [h.1]; decide

/-- C3: with an attachment selected, a Delete or Backspace key press
derives the object-store path from the attachment URL via the
`note-images/` pattern (the example URL yields `u1/abc.png`), issues the
remote delete with that path, removes the attachment node and emits the
new serialized content — and the document outcome, the emission and the
issued path are identical whatever the remote store does. -/
theorem handleKeyDown_delete_spec (d : Doc) (key : String)
    (store : StoreOutcome) (src : String)
    (hfind : findSelectedImg d = some src)
    (hkey : key = "Delete" ∨ key = "Backspace") :
    (handleKeyDown d key store).doc = removeFirstSelectedImg d
    ∧ (handleKeyDown d key store).deletedPath = derivePath src
    ∧ (handleKeyDown d key store).emitted
        = some (serialize (removeFirstSelectedImg d))
    ∧ (handleKeyDown d key store).prevented = true
    ∧ (∀ store' : StoreOutcome,
        (handleKeyDown d key store').doc = (handleKeyDown d key store).doc
        ∧ (handleKeyDown d key store').emitted = (handleKeyDown d key store).emitted
        ∧ (handleKeyDown d key store').deletedPath
            = (handleKeyDown d key store).deletedPath)
    ∧ derivePath "https://store/note-images/u1/abc.png" = some "u1/abc.png" := by
  refine ⟨?_, ?_, ?_, ?_, fun st => ⟨?_, ?_, ?_⟩, by decide⟩ <;>
    simp [handleKeyDown, hfind, if_pos hkey]

/-- Witness for C3: Backspace on a selected attachment whose remote
delete fails with a store error. -/
theorem handleKeyDown_delete_spec_witness :
    (handleKeyDown
        [Atom.ch 'a', Atom.img "https://store/note-images/u1/abc.png" true, Atom.br]
        "Backspace" (StoreOutcome.storeError "err")).doc = [Atom.ch 'a', Atom.br]
    ∧ (handleKeyDown
        [Atom.ch 'a', Atom.img "https://store/note-images/u1/abc.png" true, Atom.br]
        "Backspace" (StoreOutcome.storeError "err")).deletedPath = some "u1/abc.png" := by
  have h := handleKeyDown_delete_spec
    [Atom.ch 'a', Atom.img "https://store/note-images/u1/abc.png" true, Atom.br]
    "Backspace" (StoreOutcome.storeError "err")
    "https://store/note-images/u1/abc.png" (by decide) (Or.inr rfl)
  refine ⟨by rw [h.1]; decide, by rw [h.2.1]; decide⟩

lemma onResultAux_fst (l : List RecResult) (i c : Nat) :
    (onResultAux l i c).1 = (l.filter finalNonblank).map emitOf := by
  induction l generalizing i c with
  | nil => rfl
  | cons r rest ih =>
      by_cases hf : r.isFinal
      · by_cases ht : trimNonempty r.transcript
        · simp [onResultAux, hf, ht, finalNonblank, ih]
        · simp [onResultAux, hf, ht, finalNonblank, ih]
      · simp [onResultAux, hf, finalNonblank, ih]

lemma onResultAux_snd_allFinal (l : List RecResult) (i c : Nat)
    (h : ∀ r ∈ l, r.isFinal = true) :
    (onResultAux l i c).2 = if l.isEmpty then c else i + l.length := by
  induction l generalizing i c with
  | nil => rfl
  | cons r rest ih =>
      have hr : r.isFinal := h r (List.mem_cons_self r rest)
      have hrest := ih (i + 1) (i + 1) fun x hx => h x (List.mem_cons_of_mem r hx)
      have hstep : (onResultAux (r :: rest) i c).2 = (onResultAux rest (i + 1) (i + 1)).2 := by
        simp [onResultAux, hr]
      rw [hstep, hrest]
      cases rest with
      | nil => simp
      | cons b bs => simp; omega

lemma onResultAux_allInterim (l : List RecResult) (i c : Nat)
    (h : ∀ r ∈ l, r.isFinal = false) :
    onResultAux l i c = ([], c) := by
  induction l generalizing i with
  | nil => rfl
  | cons r rest ih =>
      have hr : r.isFinal = false := h r (List.mem_cons_self r rest)
      simp [onResultAux, hr, ih (i + 1) fun x hx => h x (List.mem_cons_of_mem r hx)]

/-- C2 counterexample: a single finalized segment whose transcript is
whitespace-only is delivered (N = 1), yet `onTranscript` is called zero
times — `onresult` skips finalized segments whose trimmed transcript is
empty, while still advancing the cursor past them. -/
theorem onResult_whitespace_counterexample :
    (∀ r ∈ [RecResult.mk true " "], r.isFinal = true)
    ∧ ([RecResult.mk true " "] : List RecResult).length = 1
    ∧ (onResult [RecResult.mk true " "] 0).1 = []
    ∧ (onResult [RecResult.mk true " "] 0).2 = 1 := by decide

/-- C2 amended: within one recognizer lifetime, `onTranscript` is
called exactly once per finalized segment with a non-whitespace
transcript, in ascending index order, each call carrying the transcript
plus the trailing delimiter (whitespace-only finalized segments are
skipped but still advance `resultCursor`); interim-only segments are
never emitted and never advance the cursor; and, the cursor having
advanced past every processed finalized segment, a later cumulative
event emits only the new segments — no duplicates, no omissions. -/
theorem onResult_amended_spec (results : List RecResult) (c : Nat) :
    (onResult results c).1
        = ((results.drop c).filter finalNonblank).map emitOf
    ∧ ((∀ r ∈ results.drop c, r.isFinal = true) → results.drop c ≠ [] →
        c ≤ results.length → (onResult results c).2 = results.length)
    ∧ ((∀ r ∈ results.drop c, r.isFinal = false) → onResult results c = ([], c))
    ∧ ((∀ r ∈ results.drop c, r.isFinal = true) → results.drop c ≠ [] →
        c ≤ results.length → ∀ ext : List RecResult,
          (onResult (results ++ ext) ((onResult results c).2)).1
            = (ext.filter finalNonblank).map emitOf) := by
  have hsnd : (∀ r ∈ results.drop c, r.isFinal = true) → results.drop c ≠ [] →
      c ≤ results.length → (onResult results c).2 = results.length := by
    intro hall hne hc
    unfold onResult
    rw [onResultAux_snd_allFinal _ _ _ hall]
    have : (results.drop c).isEmpty = false := by
      simpa [List.isEmpty_iff] using hne
    rw [this]
    simp only [Bool.false_eq_true, if_false, List.length_drop]
    omega
  refine ⟨onResultAux_fst _ _ _, hsnd, ?_, ?_⟩
  · intro hall
    unfold onResult
    rw [onResultAux_allInterim _ _ _ hall]
  · intro hall hne hc ext
    rw [hsnd hall hne hc]
    unfold onResult
    rw [List.drop_left, onResultAux_fst]

/-- Concrete recognizer lifetime for the C2 witness: two finalized
segments, then a cumulative event adding one more. -/
def exResults : List RecResult := [⟨true, "hello"⟩, ⟨true, "world"⟩]

/-- The cumulative extension delivered by the follow-up event. -/
def extResults : List RecResult := [⟨true, "again"⟩]

/-- Witness for C2 at the concrete lifetime: "hello" then "world" are
emitted with trailing delimiters and in order, the cursor ends past
both, and the follow-up cumulative event emits only "again". -/
theorem onResult_amended_spec_witness :
    (onResult exResults 0).1 = ["hello ", "world "]
    ∧ (onResult exResults 0).2 = 2
    ∧ (onResult (exResults ++ extResults) (onResult exResults 0).2).1 = ["again "] := by
  have h := onResult_amended_spec exResults 0
  refine ⟨?_, ?_, ?_⟩
  · rw [h.1]; decide
  · rw [h.2.1 (by decide) (by decide) (by decide)]; decide
  · rw [h.2.2.2 (by decide) (by decide) (by decide) extResults]; decide

/-- Once the continuation flag is down, no event other than a fresh
toggle press raises it, and no such event invokes `start()`. -/
lemma step_nonToggle_noStart (s : Session) (e : SessionEvent)
    (he : e ≠ SessionEvent.toggle) (h : s.shouldContinue = false) :
    (step s e).shouldContinue = false ∧ (step s e).startCount = s.startCount := by
  cases e with
  | toggle => exact absurd rfl he
  | errorEvt k =>
      simp only [step, onError]
      split_ifs <;> simp [h]
  | ended => simp [step, onEnd, h]
  | timerFire =>
      simp only [step, onTimer]
      split_ifs with h1 h2
      · exact absurd h2 (by simp [h])
      · simp [h]
      · simp [h]

lemma run_nonToggle_noStart (s : Session) (evs : List SessionEvent)
    (hevs : ∀ e ∈ evs, e ≠ SessionEvent.toggle) (h : s.shouldContinue = false) :
    (run s evs).startCount = s.startCount
    ∧ (run s evs).shouldContinue = false := by
  induction evs generalizing s with
  | nil => exact ⟨rfl, h⟩
  | cons e rest ih =>
      have he := hevs e (List.mem_cons_self e rest)
      have hs := step_nonToggle_noStart s e he h
      have hr := ih (step s e) (fun x hx => hevs x (List.mem_cons_of_mem e hx)) hs.1
      exact ⟨by simpa [run] using hr.1.trans hs.2, by simpa [run] using hr.2⟩

/-- From a state that is unsupported with the continuation flag down,
every event — the toggle press included, the control being unmounted —
preserves both facts and never invokes `start()`. -/
lemma step_dead_noStart (s : Session) (e : SessionEvent)
    (h1 : s.isSupported = false) (h2 : s.shouldContinue = false) :
    (step s e).isSupported = false ∧ (step s e).shouldContinue = false
    ∧ (step s e).startCount = s.startCount := by
  cases e with
  | toggle => simp [step, toggleRecording, h1, h2]
  | errorEvt k =>
      simp only [step, onError]
      split_ifs <;> simp [h1, h2]
  | ended => simp [step, onEnd, h1, h2]
  | timerFire =>
      simp only [step, onTimer]
      split_ifs with ha hb
      · exact absurd hb (by simp [h2])
      · simp [h1, h2]
      · simp [h1, h2]

lemma run_dead_noStart (s : Session) (evs : List SessionEvent)
    (h1 : s.isSupported = false) (h2 : s.shouldContinue = false) :
    (run s evs).startCount = s.startCount := by
  induction evs generalizing s with
  | nil => rfl
  | cons e rest ih =>
      have hs := step_dead_noStart s e h1 h2
      have hr := ih (step s e) hs.1 hs.2.1
      simpa [run] using hr.trans hs.2.2

/-- C4: when the recognizer ends with the continuation flag up, the
restart timer is scheduled; if at its firing the flag is still up, the
cursor is reset to 0 and `start()` is re-invoked, the session staying in
its recording state (Listening); if a stop press lands during the
delay, the flag is down at the firing, no restart happens and the
session settles idle; and from any state with the flag down, no
sequence of recognizer events (no fresh toggle press) ever invokes
`start()` again. -/
theorem onEnd_restart_spec (s : Session) :
    (s.shouldContinue = true →
      (step s SessionEvent.ended).timerPending = true
      ∧ (step (step s SessionEvent.ended) SessionEvent.timerFire).resultIndex = 0
      ∧ (step (step s SessionEvent.ended) SessionEvent.timerFire).recognizerOn = true
      ∧ (step (step s SessionEvent.ended) SessionEvent.timerFire).startCount
          = s.startCount + 1
      ∧ (step (step s SessionEvent.ended) SessionEvent.timerFire).isRecording
          = s.isRecording)
    ∧ (s.shouldContinue = true → s.isRecording = true → s.isSupported = true →
      (step (step (step s SessionEvent.ended) SessionEvent.toggle)
          SessionEvent.timerFire).shouldContinue = false
      ∧ (step (step (step s SessionEvent.ended) SessionEvent.toggle)
          SessionEvent.timerFire).isRecording = false
      ∧ (step (step (step s SessionEvent.ended) SessionEvent.toggle)
          SessionEvent.timerFire).recognizerOn = false
      ∧ (step (step (step s SessionEvent.ended) SessionEvent.toggle)
          SessionEvent.timerFire).startCount = s.startCount)
    ∧ (s.shouldContinue = false →
        ∀ evs : List SessionEvent, (∀ e ∈ evs, e ≠ SessionEvent.toggle) →
          (run s evs).startCount = s.startCount) := by
  refine ⟨fun hc => ?_, fun hc hr hs => ?_, fun hc evs hevs =>
    (run_nonToggle_noStart s evs hevs hc).1⟩
  · simp [step, onEnd, onTimer, hc]
  · simp [step, onEnd, onTimer, toggleRecording, hc, hr, hs]

/-- Witness for C4 at a concrete listening session. -/
theorem onEnd_restart_spec_witness :
    (step (step ⟨true, true, none, true, 5, true, false, 1⟩ SessionEvent.ended)
        SessionEvent.timerFire).resultIndex = 0
    ∧ (step (step ⟨true, true, none, true, 5, true, false, 1⟩ SessionEvent.ended)
        SessionEvent.timerFire).startCount = 2
    ∧ (step (step (step ⟨true, true, none, true, 5, true, false, 1⟩ SessionEvent.ended)
        SessionEvent.toggle) SessionEvent.timerFire).startCount = 1
    ∧ (run ⟨false, true, none, false, 3, false, true, 1⟩
        [SessionEvent.timerFire, SessionEvent.ended]).startCount = 1 := by
  have h := onEnd_restart_spec ⟨true, true, none, true, 5, true, false, 1⟩
  have h2 := onEnd_restart_spec ⟨false, true, none, false, 3, false, true, 1⟩
  exact ⟨(h.1 rfl).2.1, (h.1 rfl).2.2.2.1,
    ((h.2.1 rfl rfl rfl).2.2.2),
    h2.2.2 rfl [SessionEvent.timerFire, SessionEvent.ended] (by decide)⟩

/-- Concrete supported, listening session for the C8 counterexample. -/
def exSession : Session := ⟨true, true, none, true, 0, true, false, 1⟩

/-- C8 counterexample: a `not-allowed` error on a live listening
session stores the error message in state, but it also marks the
platform unsupported, and the component then renders `null` — so the
message that C8 says is surfaced to the user is never displayed, and
the toggle is unmounted rather than rendered disabled. -/
theorem onError_notAllowed_counterexample :
    visibleError exSession = none
    ∧ (step exSession (SessionEvent.errorEvt "not-allowed")).errorMsg
        = some "Microphone access denied."
    ∧ visibleError (step exSession (SessionEvent.errorEvt "not-allowed")) = none
    ∧ controlRendered (step exSession (SessionEvent.errorEvt "not-allowed")) = false := by
  decide

/-- C8 amended: a `not-allowed` recognizer error forces the
continuation flag down, records the denied-access message in state,
clears the recording state and marks the platform unsupported — which
unmounts the component, so the toggle control is gone (unavailable
rather than rendered disabled) and the recorded message is never
actually displayed; from then on no event sequence whatsoever invokes
`start()` again. -/
theorem onError_notAllowed_spec (s : Session) :
    (step s (SessionEvent.errorEvt "not-allowed")).shouldContinue = false
    ∧ (step s (SessionEvent.errorEvt "not-allowed")).isSupported = false
    ∧ (step s (SessionEvent.errorEvt "not-allowed")).errorMsg
        = some "Microphone access denied."
    ∧ visibleError (step s (SessionEvent.errorEvt "not-allowed")) = none
    ∧ controlRendered (step s (SessionEvent.errorEvt "not-allowed")) = false
    ∧ (step s (SessionEvent.errorEvt "not-allowed")).isRecording = false
    ∧ ∀ evs : List SessionEvent,
        (run (step s (SessionEvent.errorEvt "not-allowed")) evs).startCount
          = (step s (SessionEvent.errorEvt "not-allowed")).startCount := by
  have h1 : (step s (SessionEvent.errorEvt "not-allowed")).isSupported = false := by
    simp [step, onError]
  have h2 : (step s (SessionEvent.errorEvt "not-allowed")).shouldContinue = false := by
    simp [step, onError]
  refine ⟨h2, h1, ?_, ?_, ?_, ?_, fun evs => run_dead_noStart _ evs h1 h2⟩
  · simp [step, onError]
  · simp [visibleError, h1]
  · simp [controlRendered, h1]
  · simp [step, onError]

/-- Concrete clipboard for the C10 counterexample: the first image item
yields no file from `getAsFile()`, the second does. -/
def exClipItems : List ClipItem := [⟨"image/png", none⟩, ⟨"image/png", some "f2"⟩]

/-- C10 counterexample: the first image item of this paste carries no
file, and the scan does not stop there — the file handed to the upload
pipeline comes from the second image item. -/
theorem firstImageFile_counterexample :
    (exClipItems.find? fun it => strContains it.mime "image")
        = some ⟨"image/png", none⟩
    ∧ firstImageFile exClipItems = some "f2" := by decide

/-- C10 amended: the scan hands to the upload pipeline exactly the file
of the first image item for which `getAsFile()` yields one (skipping
image items without a file), and therefore at most one upload — hence
at most one attachment insertion — results from any one paste event. -/
theorem firstImageFile_amended_spec (items : List ClipItem) :
    firstImageFile items
        = (items.find? fun it => strContains it.mime "image" && it.file.isSome).bind
            ClipItem.file
    ∧ (firstImageFile items).toList.length ≤ 1 := by
  constructor
  · induction items with
    | nil => rfl
    | cons it rest ih =>
        by_cases hm : strContains it.mime "image"
        · cases hf : it.file with
          | none => simp [firstImageFile, List.find?_cons, hm, hf, ih]
          | some f => simp [firstImageFile, List.find?_cons, hm, hf]
        · simp [firstImageFile, List.find?_cons, hm, ih]
  · cases firstImageFile items <;> simp

end ZingZui
